import Mathlib

/-!
Verification of the sandboxed module-execution core of sn0int
(`src/engine/isolation.rs` and `src/args.rs`).

The Rust code is shallowly embedded: every stateful operation becomes a pure
Lean function over an explicit state record, and the behaviour of the outside
world (the child process's output, the event-bus consumer, the OS pipes) is an
explicit oracle record quantified over in the theorems.

Wire values: the code frames one `serde_json` value per line. The JSON text
layer itself belongs to the external `serde_json` crate; we model a line as
either a well-formed JSON value (`Line.json`) or text that fails to parse
(`Line.malformed`), and model the typed `to_value` / `from_value` layer
faithfully from the `serde` derive rules on the source types.
-/

namespace Isolation

/-- JSON values as exchanged on the wire. Numbers are modelled as integers
(no claim under verification depends on floating-point payloads). -/
inductive Json where
  | null : Json
  | bool : Bool → Json
  | num : Int → Json
  | str : String → Json
  | arr : List Json → Json
  | obj : List (String × Json) → Json

/-- Field lookup in a serialized JSON object, as `serde` field matching does. -/
def Json.lookupField : List (String × Json) → String → Option Json
  | [], _ => none
  | (k, v) :: rest, key => if k = key then some v else Json.lookupField rest key

/-- Decode a JSON value as a string, as `serde` does for `String` fields. -/
def Json.asStr : Json → Option String
  | .str s => some s
  | _ => none

/-- Decode a JSON value as a `u64`, as `serde` does for the `verbose` field. -/
def Json.asNat : Json → Option Nat
  | .num n => if n < 0 then none else some n.toNat
  | _ => none

/-- Decode a JSON array elementwise as a list of strings, as `serde` does for
a `Vec` of string-encoded values. -/
def Json.asStrList : List Json → Option (List String)
  | [] => some []
  | x :: xs => do
    let s ← Json.asStr x
    let rest ← Json.asStrList xs
    pure (s :: rest)

/-- A physical line of text on a pipe: either one well-formed JSON value, or
text on which `serde_json::from_str` fails. -/
inductive Line where
  | json : Json → Line
  | malformed : Line

/-- One `read_line` result on a pipe. `eof` is `read_line` returning `Ok(0)`
(the peer closed the pipe); `ioErr` is `read_line` returning `Err(_)`. -/
inductive ReadResult where
  | line : Line → ReadResult
  | eof : ReadResult
  | ioErr : ReadResult

/-- The error kinds the embedded fallible operations can produce, mirroring
the error values flowing through the crate `Result` type:
`serdeEof` is a `serde_json` error of category `Eof` (parse of an empty /
truncated line), `serdeInvalid` one of category `Syntax`/`Data` (malformed
line or a value of the wrong shape), `ioError` an `std::io::Error`,
`childSignaledError` the `bail!("Child signaled error")` in `Supervisor::wait`,
`setupError` a failure of `Supervisor::setup`, and `other` a `context`-style
message error. -/
inductive ErrorKind where
  | ioError : ErrorKind
  | serdeEof : ErrorKind
  | serdeInvalid : ErrorKind
  | childSignaledError : ErrorKind
  | setupError : ErrorKind
  | other : String → ErrorKind
deriving DecidableEq

/-- The result of running an embedded fragment: a normal `Result` value, or a
Rust panic (from `unwrap` / `expect`). -/
inductive Outcome (α : Type) where
  | ok : α → Outcome α
  | error : ErrorKind → Outcome α
  | panicked : String → Outcome α
deriving DecidableEq

/-- Modelled from the spec: `chrootable_https::dns::Resolver` is an external
crate type, "DNS resolver configuration source (captured once at parent side,
forwarded to child)"; it carries a list of nameserver addresses, each of which
serializes as a string. -/
structure Resolver where
  ns : List String

def Resolver.toJson (r : Resolver) : Json :=
  .obj [("ns", .arr (r.ns.map Json.str))]

def Resolver.fromJson : Json → Option Resolver
  | .obj fields => do
    let nsJson ← Json.lookupField fields "ns"
    match nsJson with
    | .arr xs => do
      let ns ← Json.asStrList xs
      pure ⟨ns⟩
    | _ => none
  | _ => none

/-- Modelled from the spec: `crate::engine::Module` (declared outside the
given sources) is "an opaque, content-identified unit of plugin code plus a
canonical name/version used both to select which code to run and to re-invoke
the current executable as a sandbox targeting that module". Its behaviour
(`Module::run`) is supplied separately as an oracle, since "the actual logic
written inside any individual OSINT module" is out of scope. -/
structure Module where
  name : String
  version : String

/-- Modelled from the spec: the "module-canonical-name" used as the sandbox
re-invocation argument. -/
def Module.canonical (m : Module) : String :=
  m.name ++ "/" ++ m.version

def Module.toJson (m : Module) : Json :=
  .obj [("name", .str m.name), ("version", .str m.version)]

def Module.fromJson : Json → Option Module
  | .obj fields => do
    let n ← Json.lookupField fields "name" >>= Json.asStr
    let v ← Json.lookupField fields "version" >>= Json.asStr
    pure ⟨n, v⟩
  | _ => none

/-- `StartCommand { verbose, dns_config, module, arg }` from `isolation.rs`:
the single parent→child handshake message. `verbose: u64` is a `Nat`,
`arg: serde_json::Value` is a `Json`. -/
structure StartCommand where
  verbose : Nat
  dns_config : Resolver
  module : Module
  arg : Json

/-- `StartCommand::new`. -/
def StartCommand.new (verbose : Nat) (dns_config : Resolver) (module : Module)
    (arg : Json) : StartCommand :=
  { verbose := verbose, dns_config := dns_config, module := module, arg := arg }

/-- `serde_json::to_value` of a `StartCommand`, per the `Serialize` derive on
the struct: an object with the fields in declaration order. -/
def StartCommand.toJson (s : StartCommand) : Json :=
  .obj [("verbose", .num s.verbose),
        ("dns_config", Resolver.toJson s.dns_config),
        ("module", Module.toJson s.module),
        ("arg", s.arg)]

/-- `serde_json::from_value` of a `StartCommand`, per the `Deserialize`
derive: every field is looked up by name and decoded at its type. -/
def StartCommand.fromJson (j : Json) : Option StartCommand :=
  match j with
  | .obj fields => do
    let v ← Json.lookupField fields "verbose" >>= Json.asNat
    let d ← Json.lookupField fields "dns_config" >>= Resolver.fromJson
    let m ← Json.lookupField fields "module" >>= Module.fromJson
    let a ← Json.lookupField fields "arg"
    pure ⟨v, d, m, a⟩
  | _ => none

/-- Modelled from the spec: `LogEvent` (declared in `crate::worker`, outside
the given sources) is "an informational/error message"; `LogEvent::Error` is
the only constructor the given sources use. -/
inductive LogEvent where
  | info : String → LogEvent
  | error : String → LogEvent
deriving DecidableEq

/-- `ExitEvent` from `crate::worker`: the terminal event payload, carrying
`Ok` or `Err(message)`. -/
inductive ExitEvent where
  | ok : ExitEvent
  | err : String → ExitEvent
deriving DecidableEq

/-- Modelled from the spec: `DatabaseRequest` (from `crate::worker`) is "a
request to mutate or query shared storage"; its internal shape is out of
scope, so it is carried as an opaque serialized payload. -/
structure DatabaseRequest where
  payload : Json

/-- Modelled from the spec: `StdioRequest` (from `crate::worker`) is "a
request to read from or write to the real process's interactive terminal";
carried as an opaque serialized payload. -/
structure StdioRequest where
  payload : Json

/-- `Event` from `crate::worker`: the child→parent tagged union
`{Log, Database, Stdio, Exit}`. -/
inductive Event where
  | log : LogEvent → Event
  | database : DatabaseRequest → Event
  | stdio : StdioRequest → Event
  | exit : ExitEvent → Event

/-- Modelled from the spec: `Event2` (from `crate::worker`) is the message
type of the shared event bus: either a plain `Log` event relayed upstream, or
a `Database`/`Stdio` request packaged "together with a single-use, single-slot
reply channel" by `EventWithCallback::with_callback`. Reply channels are
identified by the number of channels the supervisor created before them. -/
inductive Event2 where
  | log : LogEvent → Event2
  | databaseWithCallback : Json → Nat → Event2
  | stdioWithCallback : Json → Nat → Event2

/-- Serialization of a `LogEvent`, per the `serde` enum derive
(externally tagged). -/
def LogEvent.toJson : LogEvent → Json
  | .info m => .obj [("Info", .str m)]
  | .error m => .obj [("Error", .str m)]

def LogEvent.fromJson : Json → Option LogEvent
  | .obj [("Info", .str m)] => some (.info m)
  | .obj [("Error", .str m)] => some (.error m)
  | _ => none

/-- Serialization of an `ExitEvent`: `Ok` is a unit variant, `Err` carries a
message. -/
def ExitEvent.toJson : ExitEvent → Json
  | .ok => .str "Ok"
  | .err m => .obj [("Err", .str m)]

def ExitEvent.fromJson : Json → Option ExitEvent
  | .str "Ok" => some .ok
  | .obj [("Err", .str m)] => some (.err m)
  | _ => none

/-- Serialization of an `Event`, per the `serde` enum derive (externally
tagged union over `{Log, Database, Stdio, Exit}`). -/
def Event.toJson : Event → Json
  | .log e => .obj [("Log", e.toJson)]
  | .database r => .obj [("Database", r.payload)]
  | .stdio r => .obj [("Stdio", r.payload)]
  | .exit e => .obj [("Exit", e.toJson)]

def Event.fromJson : Json → Option Event
  | .obj [("Log", j)] => (LogEvent.fromJson j).map Event.log
  | .obj [("Database", j)] => some (.database ⟨j⟩)
  | .obj [("Stdio", j)] => some (.stdio ⟨j⟩)
  | .obj [("Exit", j)] => (ExitEvent.fromJson j).map Event.exit
  | _ => none

/-- `serde_json::from_str` of a line, at type `Event`: a malformed line fails
with a syntax error, a well-formed JSON value is decoded by
`Event.fromJson`. -/
def Event.fromLine : Line → Option Event
  | .json j => Event.fromJson j
  | .malformed => none

/-!
## Parent side: `Supervisor` and `spawn_module`

The supervisor's observable state: the lines it has written to the child's
stdin, the number of write attempts (so a per-write pipe oracle can be
consulted), the messages it has sent on the shared event bus, its local
(parent-process) log, and the number of one-shot reply channels created so
far. The child's stdout is consumed as an explicit list of `ReadResult`s.
-/

structure SupSt where
  writes : List Json
  writeCount : Nat
  bus : List Event2
  localLog : List String
  nextChannel : Nat

def initSupSt : SupSt :=
  { writes := [], writeCount := 0, bus := [], localLog := [], nextChannel := 0 }

/-- The oracle for everything outside the supervisor's own code: whether
`Supervisor::setup` succeeds, the child's stdout contents, whether each write
to the child's stdin succeeds (indexed by write attempt), whether the event
bus consumer is still alive, the replies the consuming side sends on callback
channels, and the child's process exit status observed by `wait`. -/
structure SupWorld where
  setupOk : Bool
  dns_config : Resolver
  childOutput : List ReadResult
  stdinOk : Nat → Bool
  busAlive : Bool
  dbReply : Json → Json
  stdioReply : Json → Json
  exitSuccess : Bool

/-- Modelled from the spec: `EventSender::send` (from `crate::worker`,
outside the given sources). Per the spec's failure policy, "if sending the
event onto the bus fails (consumer gone), the Supervisor logs the failure"
and the event — including any reply channel packaged inside it — is dropped. -/
def busSend (w : SupWorld) (st : SupSt) (e : Event2) : SupSt :=
  if w.busAlive then { st with bus := st.bus ++ [e] }
  else { st with localLog := st.localLog ++ ["Failed to send event to bus"] }

/-- `Supervisor::send`: serializes a value as one line and writes it to the
child's stdin; a failed `write_all` surfaces as an I/O error. -/
def Supervisor.send (w : SupWorld) (st : SupSt) (value : Json) :
    Except ErrorKind Unit × SupSt :=
  if w.stdinOk st.writeCount then
    (.ok (), { st with writes := st.writes ++ [value],
                       writeCount := st.writeCount + 1 })
  else
    (.error .ioError, { st with writeCount := st.writeCount + 1 })

/-- `Supervisor::send_start`: serializes the `StartCommand` with
`serde_json::to_value` and sends it as one line. -/
def Supervisor.send_start (w : SupWorld) (st : SupSt) (start : StartCommand) :
    Except ErrorKind Unit × SupSt :=
  Supervisor.send w st start.toJson

/-- `Supervisor::send_struct`: serializes a reply value and sends it; if the
send fails, the error is converted into a `LogEvent::Error` posted on the
event bus and the function still returns normally. (For the `Json` replies
exchanged here `serde_json::to_value` cannot fail, so the
`expect("Failed to serialize reply")` panic branch is unreachable in the
model.) -/
def Supervisor.send_struct (w : SupWorld) (st : SupSt) (value : Json) : SupSt :=
  match Supervisor.send w st value with
  | (.ok _, st') => st'
  | (.error _, st') => busSend w st' (.log (.error "Failed to send to child"))

/-- The result of one `read_line` + `serde_json::from_str` step on the
child's stdout, at type `Event`: an I/O error from `read_line` propagates as
an I/O error; end-of-file makes `from_str` fail on an empty slice (`Eof`
category); a malformed line fails with a syntax error. -/
def readEvent : ReadResult → Except ErrorKind Event
  | .ioErr => .error .ioError
  | .eof => .error .serdeEof
  | .line l =>
    match Event.fromLine l with
    | none => .error .serdeInvalid
    | some e => .ok e

/-- `Supervisor::recv`: reads exactly one line from the child's output and
deserializes it as an `Event`. Reading past the end of the recorded output
models reading a closed pipe (`read_line` returns `Ok(0)`). -/
def Supervisor.recv : List ReadResult → Except ErrorKind Event × List ReadResult
  | [] => (.error .serdeEof, [])
  | r :: rest => (readEvent r, rest)

/-- `Supervisor::wait`: blocks for child termination, succeeding only if the
exit status indicates success. -/
def Supervisor.wait (w : SupWorld) : Except ErrorKind Unit :=
  if w.exitSuccess then .ok () else .error .childSignaledError

/-- `Supervisor::send_event_callback`: creates a fresh one-shot reply channel
(`mpsc::channel`), sends the request packaged with that channel onto the
event bus, blocks on the channel for the reply, and forwards the reply to the
child with `send_struct`. If the bus consumer is gone the packaged event —
and with it the only sender of the reply channel — is dropped, so
`rx2.recv()` returns `Err` and the `.unwrap()` panics. -/
def Supervisor.send_event_callback (w : SupWorld) (st : SupSt)
    (withCallback : Nat → Event2) (reply : Json) : Outcome Unit × SupSt :=
  let ch := st.nextChannel
  let st1 := { st with nextChannel := ch + 1 }
  let st2 := busSend w st1 (withCallback ch)
  if w.busAlive then
    (.ok (), Supervisor.send_struct w st2 reply)
  else
    (.panicked "called unwrap on an Err value: RecvError", st2)

/-- Modelled from the spec: `StdioRequest::apply` (declared outside the given
sources) forwards the request through the callback router like a `Database`
event: "the Supervisor's receive loop, upon seeing a `Database` or `Stdio`
event, does not answer itself" but packages it with a reply channel, blocks,
and ships the reply back to the child. (The parent-side `reader` handed to
`apply` by `spawn_module` only feeds the terminal contents into the reply and
is absorbed into the reply oracle.) -/
def StdioRequest.apply (w : SupWorld) (st : SupSt) (o : StdioRequest) :
    Outcome Unit × SupSt :=
  Supervisor.send_event_callback w st (Event2.stdioWithCallback o.payload)
    (w.stdioReply o.payload)

/-- The receive loop of `spawn_module`: one `Supervisor::recv` per iteration,
dispatch by event tag, terminate on `Exit` (logging the error message of an
`Exit(Err(..))` on the bus) or on any `recv` failure. -/
def eventLoop (w : SupWorld) : List ReadResult → SupSt → Outcome Unit × SupSt
  | [], st => (.error .serdeEof, st)
  | r :: rest, st =>
    match readEvent r with
    | .error e => (.error e, st)
    | .ok (.log e) => eventLoop w rest (busSend w st (.log e))
    | .ok (.database o) =>
      match Supervisor.send_event_callback w st
          (Event2.databaseWithCallback o.payload) (w.dbReply o.payload) with
      | (.ok _, st') => eventLoop w rest st'
      | (.error e, st') => (.error e, st')
      | (.panicked m, st') => (.panicked m, st')
    | .ok (.stdio o) =>
      match StdioRequest.apply w st o with
      | (.ok _, st') => eventLoop w rest st'
      | (.error e, st') => (.error e, st')
      | (.panicked m, st') => (.panicked m, st')
    | .ok (.exit e) =>
      match e with
      | .ok => (.ok (), st)
      | .err m => (.ok (), busSend w st (.log (.error m)))

/-- `spawn_module`: sets up the supervisor (spawning the child), sends the
`StartCommand`, runs the receive loop until `Exit` or failure, then reaps the
child with `wait` — so the overall result also demands a successful process
exit status. -/
def spawn_module (w : SupWorld) (module : Module) (arg : Json)
    (verbose : Nat) : Outcome Unit × SupSt :=
  if w.setupOk then
    match Supervisor.send_start w initSupSt
        (StartCommand.new verbose w.dns_config module arg) with
    | (.error e, st) => (.error e, st)
    | (.ok _, st) =>
      match eventLoop w w.childOutput st with
      | (.error e, st') => (.error e, st')
      | (.panicked m, st') => (.panicked m, st')
      | (.ok _, st') =>
        match Supervisor.wait w with
        | .ok _ => (.ok (), st')
        | .error e => (.error e, st')
  else
    (.error .setupError, initSupSt)

/-!
## Child side: `StdioReporter` and `run_worker`

The child's observable state is the stream of parent→child lines still to be
read from its stdin and the lines it has written to its stdout. External
resources (`GeoIP`, `AsnDB`, the `psl` crate parser, the module body behind
`Module::run`) are opaque values and oracles.
-/

/-- Opaque external resource: the GeoIP database handle. -/
structure GeoIP where
  tag : Nat

/-- Opaque external resource: the ASN database handle. -/
structure AsnDB where
  tag : Nat

/-- Opaque external resource: a parsed public-suffix list
(`psl::Psl`). -/
structure Psl where
  tag : Nat

/-- `Environment` from `crate::engine`: the read-only resource bundle built
once inside the child from the `StartCommand` plus the statically loaded
GeoIP/ASN/public-suffix data. -/
structure Environment where
  verbose : Nat
  dns_config : Resolver
  psl : Psl
  geoip : GeoIP
  asn : AsnDB

/-- The outcome of one `Module::run` invocation, as observed through the
shared reporter handle: the events the module itself sent while running, its
`Result`, and the number of additional holders of the reporter `Arc` still
alive when it returns (0 in a contract-abiding run). -/
structure ModuleOutcome where
  sent : List Event
  result : Except String Unit
  extraHolders : Nat

/-- The oracle for everything outside the child runtime's own code: its stdin
contents, the external `Psl::from_str` parser, the module behaviour
(`Module::run`, out of scope per the spec), and whether writes to the child's
stdout succeed. -/
structure WorkerWorld where
  stdinReads : List ReadResult
  pslParse : String → Option Psl
  runModule : Module → Environment → Json → ModuleOutcome
  stdoutOk : Bool

/-- The child-side observable state: remaining stdin lines and the stdout
trace. -/
structure WorkerSt where
  reads : List ReadResult
  stdout : List Json

/-- The result of one `read_line` + `serde_json::from_str` step on the
child's stdin, at type `serde_json::Value` (`StdioReporter`'s `Reporter::recv`
deserializes to an untyped value first). -/
def readValue : ReadResult → Except ErrorKind Json
  | .ioErr => .error .ioError
  | .eof => .error .serdeEof
  | .line .malformed => .error .serdeInvalid
  | .line (.json j) => .ok j

/-- `StdioReporter`'s `Reporter::recv`: reads exactly one line from the
child's stdin and deserializes it as a `serde_json::Value`. Reading past the
end of the recorded input models reading a closed pipe. -/
def StdioReporter.recv : List ReadResult → Except ErrorKind Json × List ReadResult
  | [] => (.error .serdeEof, [])
  | r :: rest => (readValue r, rest)

/-- `StdioReporter::recv_start`: one `recv`, then `serde_json::from_value` at
type `StartCommand`. -/
def StdioReporter.recv_start (reads : List ReadResult) :
    Except ErrorKind StartCommand × List ReadResult :=
  match StdioReporter.recv reads with
  | (.error e, rest) => (.error e, rest)
  | (.ok v, rest) =>
    match StartCommand.fromJson v with
    | none => (.error .serdeInvalid, rest)
    | some s => (.ok s, rest)

/-- `StdioReporter`'s `Reporter::send`: serializes the event as one line and
writes it to the child's stdout. -/
def StdioReporter.send (w : WorkerWorld) (st : WorkerSt) (event : Event) :
    Except ErrorKind Unit × WorkerSt :=
  if w.stdoutOk then (.ok (), { st with stdout := st.stdout ++ [event.toJson] })
  else (.error .ioError, st)

/-- The `Exit` payload computed by `run_worker` from the module result:
`Ok` on success, the stringified error otherwise. -/
def exitEventOf : Except String Unit → ExitEvent
  | .ok _ => .ok
  | .error err => .err err

/-- `run_worker`: the single child-side entry point. Receives exactly one
`StartCommand`, parses the public-suffix list (failing with the
"Failed to load public suffix list" context if malformed), builds the
`Environment`, runs the module against the `Arc<Mutex<_>>`-shared reporter,
then reclaims exclusive ownership of the reporter with
`Arc::try_unwrap(..).expect("Failed to consume Arc")` — a panic if any other
holder of the handle is still alive — and finally sends exactly one `Exit`
event reflecting the module result. -/
def run_worker (w : WorkerWorld) (geoip : GeoIP) (asn : AsnDB) (psl : String) :
    Outcome Unit × WorkerSt :=
  let st : WorkerSt := { reads := w.stdinReads, stdout := [] }
  match StdioReporter.recv_start st.reads with
  | (.error e, rest) => (.error e, { st with reads := rest })
  | (.ok start, rest) =>
    let st := { st with reads := rest }
    match w.pslParse psl with
    | none => (.error (.other "Failed to load public suffix list"), st)
    | some p =>
      let environment : Environment :=
        { verbose := start.verbose, dns_config := start.dns_config,
          psl := p, geoip := geoip, asn := asn }
      let outcome := w.runModule start.module environment start.arg
      let st := { st with stdout := st.stdout ++ outcome.sent.map Event.toJson }
      if outcome.extraHolders ≠ 0 then
        (.panicked "Failed to consume Arc", st)
      else
        match StdioReporter.send w st (.exit (exitEventOf outcome.result)) with
        | (.ok _, st') => (.ok (), st')
        | (.error e, st') => (.error e, st')

/-- The printable message of an embedded error value, as `err.to_string()`
renders it in the sandbox entry point. -/
def ErrorKind.message : ErrorKind → String
  | .ioError => "I/O error"
  | .serdeEof => "EOF while parsing a value"
  | .serdeInvalid => "invalid value"
  | .childSignaledError => "Child signaled error"
  | .setupError => "Failed to spawn child process"
  | .other s => s

/-- Modelled from the spec: the sandbox entry point that calls `run_worker`
(its caller is outside the given sources). Per the spec, a fatal child error
such as a malformed public-suffix list is "surfaced as `Exit(Err(...))`" to
the parent: on a `run_worker` error the entry point reports one final
`Exit(Err(message))` event on the child's stdout. -/
def sandbox_run (w : WorkerWorld) (geoip : GeoIP) (asn : AsnDB) (psl : String) :
    Outcome Unit × WorkerSt :=
  match run_worker w geoip asn psl with
  | (.error e, st) =>
    (.error e,
     { st with stdout := st.stdout ++ [Event.toJson (.exit (.err e.message))] })
  | other => other

/-!
## Helper lemmas: the typed codec layer inverts itself
-/

theorem asStrList_map_str (ns : List String) :
    Json.asStrList (ns.map Json.str) = some ns := by
  induction ns with
  | nil => rfl
  | cons h t ih => simp [Json.asStrList, ih, Json.asStr]

theorem resolver_roundtrip (r : Resolver) :
    Resolver.fromJson r.toJson = some r := by
  simp [Resolver.fromJson, Resolver.toJson, Json.lookupField, asStrList_map_str]

theorem module_roundtrip (m : Module) :
    Module.fromJson m.toJson = some m := by
  simp [Module.fromJson, Module.toJson, Json.lookupField, Json.asStr]

theorem startCommand_roundtrip (s : StartCommand) :
    StartCommand.fromJson s.toJson = some s := by
  obtain ⟨v, d, m, a⟩ := s
  simp [StartCommand.fromJson, StartCommand.toJson, Json.lookupField,
        Json.asNat, resolver_roundtrip, module_roundtrip,
        show ¬((v : Int) < 0) from not_lt.mpr (Int.natCast_nonneg v)]

theorem event_roundtrip (e : Event) :
    Event.fromJson e.toJson = some e := by
  cases e with
  | log l => cases l <;> rfl
  | database r => rfl
  | stdio r => rfl
  | exit x => cases x <;> rfl

theorem readEvent_toJson (e : Event) :
    readEvent (.line (.json e.toJson)) = .ok e := by
  simp [readEvent, Event.fromLine, event_roundtrip]

/-!
## Concrete sample values, used by the witness theorems
-/

def sampleResolver : Resolver := ⟨["127.0.0.1:53"]⟩

def sampleModule : Module := ⟨"kpcyrd/ctlogs", "0.1.0"⟩

def sampleStart : StartCommand := StartCommand.new 1 sampleResolver sampleModule .null

/-- A run in which everything outside the supervisor behaves: setup works,
every stdin write succeeds, the bus consumer is alive, and the child exits
with a success status. -/
def allOkWorld : SupWorld :=
  { setupOk := true, dns_config := sampleResolver, childOutput := [],
    stdinOk := fun _ => true, busAlive := true,
    dbReply := fun _ => .null, stdioReply := fun _ => .null,
    exitSuccess := true }

/-!
## C9 — the `StartCommand` handshake round-trips
-/

/-- C9: for every valid `StartCommand` value, serializing it as one line (as
`Supervisor::send_start` does) and then deserializing that line (as
`StdioReporter::recv_start` does) yields a `StartCommand` equal to the
original. -/
theorem claim_C9_start_roundtrip (w : SupWorld) (st : SupSt) (s : StartCommand)
    (rest : List ReadResult) (h : w.stdinOk st.writeCount = true) :
    Supervisor.send_start w st s
      = (.ok (), { st with writes := st.writes ++ [s.toJson],
                           writeCount := st.writeCount + 1 })
    ∧ StdioReporter.recv_start (.line (.json s.toJson) :: rest) = (.ok s, rest) := by
  constructor
  · simp [Supervisor.send_start, Supervisor.send, h]
  · simp [StdioReporter.recv_start, StdioReporter.recv, readValue,
          startCommand_roundtrip]

theorem claim_C9_witness :
    StdioReporter.recv_start [.line (.json sampleStart.toJson)]
      = (.ok sampleStart, []) :=
  (claim_C9_start_roundtrip allOkWorld initSupSt sampleStart [] rfl).2

/-!
## C5 — `Supervisor::recv` error behaviour

The claim as frozen states that an unexpectedly closed pipe "propagates as an
I/O error". In the code, `read_line` on a pipe whose peer has closed returns
`Ok(0)` (end-of-file), so `recv` then fails inside
`serde_json::from_str(&line[..0])` with a deserialization error of the `Eof`
category — a protocol-layer error, not an `std::io::Error`. A genuine I/O
failure of the read itself does propagate as an I/O error. The counterexample
exhibits the closed-pipe input and shows the resulting error is not the I/O
error; the amended theorem records the full case analysis.
-/

/-- C5 (counterexample): with the child's stdout closed before any line
(`read_line` returns `Ok(0)`), `Supervisor::recv` fails with the EOF-category
deserialization error, not an I/O error — refuting "when the pipe closes
unexpectedly, the failure propagates as an I/O error". -/
theorem claim_C5_counterexample :
    Supervisor.recv [] = (.error .serdeEof, [])
    ∧ Supervisor.recv [.eof] = (.error .serdeEof, [])
    ∧ ErrorKind.serdeEof ≠ ErrorKind.ioError := by
  refine ⟨rfl, rfl, ?_⟩
  decide

/-- C5 (amended): `Supervisor::recv` consumes exactly one line from the
child's output; a malformed line fails with a syntax-category deserialization
error; an unexpectedly closed pipe surfaces as end-of-file and fails with the
EOF-category deserialization error — distinguishable from the malformed-line
error and never treated as a normal event (in particular never as an `Exit`);
an I/O error of the read itself propagates as an I/O error. -/
theorem claim_C5_recv_errors :
    (∀ r rest, (Supervisor.recv (r :: rest)).2 = rest)
    ∧ (∀ rest, (Supervisor.recv (.line .malformed :: rest)).1
        = .error .serdeInvalid)
    ∧ (Supervisor.recv []).1 = .error .serdeEof
    ∧ (∀ rest, (Supervisor.recv (.eof :: rest)).1 = .error .serdeEof)
    ∧ (∀ rest, (Supervisor.recv (.ioErr :: rest)).1 = .error .ioError)
    ∧ ErrorKind.serdeEof ≠ ErrorKind.serdeInvalid
    ∧ (∀ rest e, (Supervisor.recv (.eof :: rest)).1 ≠ .ok e) := by
  refine ⟨fun r rest => rfl, fun rest => rfl, rfl, fun rest => rfl,
          fun rest => rfl, by decide, fun rest e h => ?_⟩
  simp [Supervisor.recv, readEvent] at h

/-!
## C7 — a closed stream fails the handshake instead of hanging
-/

/-- C7: a child whose input stream closes before any `StartCommand` arrives
fails the handshake: `StdioReporter::recv_start` returns an error (the
EOF-category deserialization error) rather than an event, and hence
`run_worker` returns that error. -/
theorem claim_C7_handshake_eof (w : WorkerWorld) (geoip : GeoIP) (asn : AsnDB)
    (psl : String) (h : w.stdinReads = []) :
    (StdioReporter.recv_start []).1 = .error .serdeEof
    ∧ (∀ rest, (StdioReporter.recv_start (.eof :: rest)).1 = .error .serdeEof)
    ∧ (run_worker w geoip asn psl).1 = .error .serdeEof := by
  refine ⟨rfl, fun rest => rfl, ?_⟩
  simp [run_worker, h, StdioReporter.recv_start, StdioReporter.recv]

/-- A child-side world whose stdin is closed before any line arrives. -/
def closedStdinWorld : WorkerWorld :=
  { stdinReads := [], pslParse := fun _ => some ⟨0⟩,
    runModule := fun _ _ _ => ⟨[], .ok (), 0⟩, stdoutOk := true }

theorem claim_C7_witness :
    (run_worker closedStdinWorld ⟨0⟩ ⟨0⟩ "").1 = .error .serdeEof :=
  (claim_C7_handshake_eof closedStdinWorld ⟨0⟩ ⟨0⟩ "" rfl).2.2

/-!
## C2 — the Database callback round-trip
-/

/-- The reply-channel identifiers of the callback packages placed on the
event bus. -/
def busChannels : List Event2 → List Nat
  | [] => []
  | .databaseWithCallback _ ch :: rest => ch :: busChannels rest
  | .stdioWithCallback _ ch :: rest => ch :: busChannels rest
  | .log _ :: rest => busChannels rest

/-- C2: on a `Database` event the supervisor does not answer the request
itself: it packages the request with a fresh one-shot reply channel
(identifier `st.nextChannel`, never used for any earlier bus message), places
exactly one message on the event bus, and the single line written to the
child is precisely the consuming side's reply `w.dbReply o.payload` —
whatever reply function the consumer implements — after which the loop
continues. -/
theorem claim_C2_database_callback (w : SupWorld) (st : SupSt)
    (o : DatabaseRequest) (rest : List ReadResult)
    (hbus : w.busAlive = true) (hpipe : w.stdinOk st.writeCount = true) :
    eventLoop w (.line (.json (Event.toJson (.database o))) :: rest) st
      = eventLoop w rest
          { st with nextChannel := st.nextChannel + 1,
                    bus := st.bus
                      ++ [.databaseWithCallback o.payload st.nextChannel],
                    writes := st.writes ++ [w.dbReply o.payload],
                    writeCount := st.writeCount + 1 }
    ∧ ((∀ ch ∈ busChannels st.bus, ch < st.nextChannel) →
        st.nextChannel ∉ busChannels st.bus) := by
  constructor
  · simp [eventLoop, readEvent_toJson, Supervisor.send_event_callback, busSend,
          hbus, Supervisor.send_struct, Supervisor.send, hpipe]
  · intro hlt hmem
    exact absurd (hlt _ hmem) (lt_irrefl _)

theorem claim_C2_witness :
    eventLoop allOkWorld [.line (.json (Event.toJson (.database ⟨.null⟩)))]
        initSupSt
      = eventLoop allOkWorld []
          { initSupSt with nextChannel := 1,
                           bus := [.databaseWithCallback .null 0],
                           writes := [.null], writeCount := 1 } :=
  (claim_C2_database_callback allOkWorld initSupSt ⟨.null⟩ [] rfl rfl).1

/-!
## C10 — a failed reply write is logged, not fatal to the loop
-/

/-- C10: when the write of a callback reply to the child's stdin fails,
`send_struct` converts the write error into a `LogEvent::Error` posted on the
event bus and returns normally, so the receive loop proceeds to the next
`recv` (the computation continues on `rest`) instead of aborting: nothing is
written, the callback package and then the error log appear on the bus, and
no error or panic is produced at this step. -/
theorem claim_C10_write_failure_continues (w : SupWorld) (st : SupSt)
    (o : DatabaseRequest) (rest : List ReadResult)
    (hbus : w.busAlive = true) (hpipe : w.stdinOk st.writeCount = false) :
    eventLoop w (.line (.json (Event.toJson (.database o))) :: rest) st
      = eventLoop w rest
          { st with nextChannel := st.nextChannel + 1,
                    bus := st.bus
                      ++ [.databaseWithCallback o.payload st.nextChannel,
                          .log (.error "Failed to send to child")],
                    writeCount := st.writeCount + 1 } := by
  simp [eventLoop, readEvent_toJson, Supervisor.send_event_callback, busSend,
        hbus, Supervisor.send_struct, Supervisor.send, hpipe]

/-- A parent-side world in which the child's stdin rejects every write. -/
def writeFailWorld : SupWorld :=
  { allOkWorld with stdinOk := fun _ => false }

theorem claim_C10_witness :
    eventLoop writeFailWorld [.line (.json (Event.toJson (.database ⟨.null⟩)))]
        initSupSt
      = eventLoop writeFailWorld []
          { initSupSt with nextChannel := 1,
                           bus := [.databaseWithCallback .null 0,
                                   .log (.error "Failed to send to child")],
                           writeCount := 1 } :=
  claim_C10_write_failure_continues writeFailWorld initSupSt ⟨.null⟩ [] rfl rfl

/-!
## C6 — bus consumer gone during a callback

The claim as frozen states the supervisor "neither panics nor sends a value".
In the code the packaged event — holding the only sender of the reply
channel — is dropped when the bus send fails, so `rx2.recv()` returns `Err`
and the `.unwrap()` in `send_event_callback` panics. The supervisor does log
the failure and never forwards a value to the child, but it reaches that
point by panicking, not by returning normally.
-/

/-- A parent-side world whose event-bus consumer is gone. -/
def deadBusWorld : SupWorld :=
  { allOkWorld with busAlive := false }

/-- C6 (counterexample): with the bus consumer gone, the `Database` callback
path panics (the `unwrap` on the dead reply channel) instead of returning
normally — refuting "it neither panics nor sends a value" in its "does not
panic" half. -/
theorem claim_C6_counterexample :
    (Supervisor.send_event_callback deadBusWorld initSupSt
        (Event2.databaseWithCallback .null) .null).1
      = .panicked "called unwrap on an Err value: RecvError"
    ∧ (Supervisor.send_event_callback deadBusWorld initSupSt
        (Event2.databaseWithCallback .null) .null).1 ≠ .ok () := by
  refine ⟨rfl, fun h => ?_⟩
  simp [Supervisor.send_event_callback, busSend, deadBusWorld, allOkWorld] at h

/-- C6 (amended): if the event-bus consumer is gone while a `Database` (or,
identically, `Stdio`) callback is outstanding, the supervisor logs the
failure locally and forwards no reply to the child — nothing is placed on the
bus and nothing is written to the child's stdin — but it does not return
normally: the reply-channel receive fails and the `.unwrap()` panics, after
which the child observes a closed input stream. -/
theorem claim_C6_dead_bus_panics (w : SupWorld) (st : SupSt) (p reply : Json)
    (h : w.busAlive = false) :
    Supervisor.send_event_callback w st (Event2.databaseWithCallback p) reply
      = (.panicked "called unwrap on an Err value: RecvError",
         { st with nextChannel := st.nextChannel + 1,
                   localLog := st.localLog
                     ++ ["Failed to send event to bus"] }) := by
  simp [Supervisor.send_event_callback, busSend, h]

theorem claim_C6_witness :
    Supervisor.send_event_callback deadBusWorld initSupSt
        (Event2.databaseWithCallback .null) .null
      = (.panicked "called unwrap on an Err value: RecvError",
         { initSupSt with nextChannel := 1,
                          localLog := ["Failed to send event to bus"] }) :=
  claim_C6_dead_bus_panics deadBusWorld initSupSt .null .null rfl

/-!
## C8 — `Exit(Err(m))` surfaces `m` verbatim and ends the exchange
-/

/-- C8: when the child sends `Exit(Err(m))`, the receive loop stops
immediately — the remaining stream is never consumed and the state changes
only by the message posted on the bus — the job failure is surfaced upstream
as `LogEvent::Error` with the message text `m` preserved verbatim, and at the
`spawn_module` level the only line ever written to that child is the
`StartCommand`: no further command is sent between the `Exit` and the
`wait()` that reaps the child. -/
theorem claim_C8_exit_err (w : SupWorld) (st : SupSt) (m : String)
    (rest : List ReadResult) (module : Module) (arg : Json) (verbose : Nat)
    (hbus : w.busAlive = true) :
    eventLoop w (.line (.json (Event.toJson (.exit (.err m)))) :: rest) st
      = (.ok (), { st with bus := st.bus ++ [.log (.error m)] })
    ∧ (w.setupOk = true → w.stdinOk 0 = true →
       w.childOutput = .line (.json (Event.toJson (.exit (.err m)))) :: rest →
       (spawn_module w module arg verbose).2.writes
         = [StartCommand.toJson
             (StartCommand.new verbose w.dns_config module arg)]) := by
  have hloop : ∀ st' : SupSt,
      eventLoop w (.line (.json (Event.toJson (.exit (.err m)))) :: rest) st'
        = (.ok (), { st' with bus := st'.bus ++ [.log (.error m)] }) := by
    intro st'
    simp [eventLoop, readEvent_toJson, busSend, hbus]
  refine ⟨hloop st, fun hsetup hw0 hco => ?_⟩
  cases hx : w.exitSuccess <;>
    simp [spawn_module, hsetup, Supervisor.send_start, Supervisor.send,
          initSupSt, hw0, hco, hloop, Supervisor.wait, hx]

/-- A parent-side world whose child reports `Exit(Err("boom"))` and then
exits cleanly. -/
def boomWorld : SupWorld :=
  { allOkWorld with
    childOutput := [.line (.json (Event.toJson (.exit (.err "boom"))))] }

theorem claim_C8_witness :
    eventLoop boomWorld [.line (.json (Event.toJson (.exit (.err "boom"))))]
        initSupSt
      = (.ok (), { initSupSt with bus := [.log (.error "boom")] })
    ∧ (spawn_module boomWorld sampleModule .null 1).2.writes
      = [StartCommand.toJson
          (StartCommand.new 1 boomWorld.dns_config sampleModule .null)] := by
  have h := claim_C8_exit_err boomWorld initSupSt "boom" [] sampleModule .null 1 rfl
  exact ⟨h.1, h.2 rfl rfl rfl⟩

/-!
## C3 — reclaiming the reporter handle at finalization
-/

/-- C3: when the module invocation inside `run_worker` returns, the child
runtime reclaims exclusive ownership of the shared reporter handle: if any
other holder is still alive (`extraHolders ≠ 0`), `run_worker` panics with
`"Failed to consume Arc"` and the `Exit` event is never sent (the stdout
trace ends with the module's own events); otherwise it sends exactly one
final `Exit` event, carrying `Ok` on module success or the stringified module
error. -/
theorem claim_C3_reporter_finalize (w : WorkerWorld) (geoip : GeoIP)
    (asn : AsnDB) (psl : String) (s : StartCommand) (rest : List ReadResult)
    (p : Psl)
    (hreads : w.stdinReads = .line (.json s.toJson) :: rest)
    (hpsl : w.pslParse psl = some p) :
    (let environment : Environment :=
      { verbose := s.verbose, dns_config := s.dns_config,
        psl := p, geoip := geoip, asn := asn }
     let outcome := w.runModule s.module environment s.arg
     ((outcome.extraHolders ≠ 0 →
        run_worker w geoip asn psl
          = (.panicked "Failed to consume Arc",
             { reads := rest, stdout := outcome.sent.map Event.toJson }))
      ∧ (outcome.extraHolders = 0 → w.stdoutOk = true →
        run_worker w geoip asn psl
          = (.ok (),
             { reads := rest,
               stdout := outcome.sent.map Event.toJson
                 ++ [Event.toJson (.exit (exitEventOf outcome.result))] })))) := by
  constructor
  · intro hleak
    simp [run_worker, hreads, StdioReporter.recv_start, StdioReporter.recv,
          readValue, startCommand_roundtrip, hpsl, hleak]
  · intro hclean hout
    simp [run_worker, hreads, StdioReporter.recv_start, StdioReporter.recv,
          readValue, startCommand_roundtrip, hpsl, hclean,
          StdioReporter.send, hout]

/-- A child-side world whose module leaks one extra holder of the reporter
handle. -/
def leakWorld : WorkerWorld :=
  { stdinReads := [.line (.json sampleStart.toJson)],
    pslParse := fun _ => some ⟨0⟩,
    runModule := fun _ _ _ => ⟨[], .ok (), 1⟩, stdoutOk := true }

/-- A child-side world whose module releases every holder and fails with
message `"boom"`. -/
def cleanFailWorld : WorkerWorld :=
  { leakWorld with runModule := fun _ _ _ => ⟨[], .error "boom", 0⟩ }

theorem claim_C3_witness :
    run_worker leakWorld ⟨0⟩ ⟨0⟩ ""
      = (.panicked "Failed to consume Arc", { reads := [], stdout := [] })
    ∧ run_worker cleanFailWorld ⟨0⟩ ⟨0⟩ ""
      = (.ok (), { reads := [],
                   stdout := [Event.toJson (.exit (.err "boom"))] }) := by
  constructor
  · exact (claim_C3_reporter_finalize leakWorld ⟨0⟩ ⟨0⟩ "" sampleStart [] ⟨0⟩
      rfl rfl).1 (by decide)
  · exact (claim_C3_reporter_finalize cleanFailWorld ⟨0⟩ ⟨0⟩ "" sampleStart []
      ⟨0⟩ rfl rfl).2 rfl rfl

/-!
## C4 — a malformed public-suffix list is fatal and surfaced
-/

/-- C4: if the public-suffix list text given to `run_worker` is malformed
(the external parser rejects it), the child run fails fatally with the
`"Failed to load public suffix list"` context error before the module ever
runs, and the (spec-modelled) sandbox entry point surfaces that failure to
the parent as an `Exit(Err(...))` event carrying that message. -/
theorem claim_C4_psl_failure (w : WorkerWorld) (geoip : GeoIP) (asn : AsnDB)
    (psl : String) (s : StartCommand) (rest : List ReadResult)
    (hreads : w.stdinReads = .line (.json s.toJson) :: rest)
    (hpsl : w.pslParse psl = none) :
    run_worker w geoip asn psl
      = (.error (.other "Failed to load public suffix list"),
         { reads := rest, stdout := [] })
    ∧ sandbox_run w geoip asn psl
      = (.error (.other "Failed to load public suffix list"),
         { reads := rest,
           stdout := [Event.toJson
             (.exit (.err "Failed to load public suffix list"))] }) := by
  have hrun : run_worker w geoip asn psl
      = (.error (.other "Failed to load public suffix list"),
         { reads := rest, stdout := [] }) := by
    simp [run_worker, hreads, StdioReporter.recv_start, StdioReporter.recv,
          readValue, startCommand_roundtrip, hpsl]
  refine ⟨hrun, ?_⟩
  simp [sandbox_run, hrun, ErrorKind.message]

/-- A child-side world whose public-suffix list text is rejected by the
parser. -/
def badPslWorld : WorkerWorld :=
  { leakWorld with pslParse := fun _ => none }

theorem claim_C4_witness :
    sandbox_run badPslWorld ⟨0⟩ ⟨0⟩ "not a psl"
      = (.error (.other "Failed to load public suffix list"),
         { reads := [],
           stdout := [Event.toJson
             (.exit (.err "Failed to load public suffix list"))] }) :=
  (claim_C4_psl_failure badPslWorld ⟨0⟩ ⟨0⟩ "not a psl" sampleStart []
    rfl rfl).2

/-!
## C1 — both the `Exit` event and the process exit status must pass
-/

/-- Whether a read from the child's stdout is a well-formed line carrying an
`Exit` event. -/
def isExitLine (r : ReadResult) : Bool :=
  match r with
  | .line l =>
    match Event.fromLine l with
    | some (.exit _) => true
    | _ => false
  | _ => false

/-- The receive loop returns `Ok` only by taking the `Exit` branch: some read
in the consumed stream is a well-formed `Exit` line. -/
theorem eventLoop_ok_exit (w : SupWorld) :
    ∀ (reads : List ReadResult) (st : SupSt),
      (eventLoop w reads st).1 = .ok () → ∃ r ∈ reads, isExitLine r = true := by
  intro reads
  induction reads with
  | nil => intro st h; simp [eventLoop] at h
  | cons r rest ih =>
    intro st h
    simp only [eventLoop] at h
    cases hre : readEvent r with
    | error e => rw [hre] at h; simp at h
    | ok ev =>
      rw [hre] at h
      cases ev with
      | log e =>
        obtain ⟨r', hr', hx⟩ := ih _ h
        exact ⟨r', List.mem_cons_of_mem _ hr', hx⟩
      | database o =>
        dsimp only at h
        rcases hcb : Supervisor.send_event_callback w st
            (Event2.databaseWithCallback o.payload) (w.dbReply o.payload) with
          ⟨res, st'⟩
        rw [hcb] at h
        cases res with
        | ok _ =>
          obtain ⟨r', hr', hx⟩ := ih _ h
          exact ⟨r', List.mem_cons_of_mem _ hr', hx⟩
        | error e => simp at h
        | panicked m => simp at h
      | stdio o =>
        dsimp only at h
        rcases hcb : StdioRequest.apply w st o with ⟨res, st'⟩
        rw [hcb] at h
        cases res with
        | ok _ =>
          obtain ⟨r', hr', hx⟩ := ih _ h
          exact ⟨r', List.mem_cons_of_mem _ hr', hx⟩
        | error e => simp at h
        | panicked m => simp at h
      | exit e =>
        refine ⟨r, List.mem_cons_self _ _, ?_⟩
        cases r with
        | ioErr => simp [readEvent] at hre
        | eof => simp [readEvent] at hre
        | line l =>
          unfold readEvent at hre
          dsimp only at hre
          cases hfl : Event.fromLine l with
          | none => rw [hfl] at hre; exact absurd hre (by simp)
          | some ev' =>
            rw [hfl] at hre
            injection hre with hev
            subst hev
            simp [isExitLine, hfl]

/-- C1: `spawn_module` returns success only if the receive loop ended on a
clean `Exit` line from the child and `Supervisor::wait` observed a success
exit status — and in particular a run whose child sent `Exit(Ok)` but whose
process then exited nonzero yields the `"Child signaled error"` failure, not
success. -/
theorem claim_C1_result_conjunction (w : SupWorld) (module : Module)
    (arg : Json) (verbose : Nat) :
    ((spawn_module w module arg verbose).1 = .ok () →
      (∃ r ∈ w.childOutput, isExitLine r = true) ∧ w.exitSuccess = true)
    ∧ (∀ e rest, w.setupOk = true → w.stdinOk 0 = true →
       w.childOutput = .line (.json (Event.toJson (.exit e))) :: rest →
       w.exitSuccess = false →
       (spawn_module w module arg verbose).1 = .error .childSignaledError) := by
  constructor
  · intro h
    rw [spawn_module] at h
    split at h
    · split at h
      · simp at h
      · split at h
        · simp at h
        · simp at h
        · rename_i st hsend st' res hloop
          refine ⟨eventLoop_ok_exit w w.childOutput _ (by rw [hloop]), ?_⟩
          cases hx : w.exitSuccess with
          | true => rfl
          | false => simp [Supervisor.wait, hx] at h
    · simp at h
  · intro e rest hs hw0 hco hx
    cases e with
    | ok =>
      simp [spawn_module, hs, Supervisor.send_start, Supervisor.send,
            initSupSt, hw0, hco, eventLoop, readEvent_toJson,
            Supervisor.wait, hx]
    | err m =>
      simp [spawn_module, hs, Supervisor.send_start, Supervisor.send,
            initSupSt, hw0, hco, eventLoop, readEvent_toJson, busSend,
            Supervisor.wait, hx]

/-- A parent-side world whose child reports `Exit(Ok)` but whose process then
exits with a failure status. -/
def crashAfterOkWorld : SupWorld :=
  { allOkWorld with
    childOutput := [.line (.json (Event.toJson (.exit .ok)))],
    exitSuccess := false }

theorem claim_C1_witness :
    (spawn_module crashAfterOkWorld sampleModule .null 1).1
      = .error .childSignaledError :=
  (claim_C1_result_conjunction crashAfterOkWorld sampleModule .null 1).2
    .ok [] rfl rfl rfl rfl

end Isolation


